import Mathlib

/-!
Shallow embedding of the timing/session core of the swimwatch-hardware
firmware (the canonical `WebSocketStopwatch` variant of
`src/src/websocket_stopwatch.cpp`, lines 1-568, together with its header's
constants `MAX_LAPS = 90`, `MAX_LANES = 10`).

Machine integers are modelled as `Nat`/`Int` with explicit wrap-around
(`% 2^32`, `% 2^64`, two's-complement reinterpretation) at exactly the
points where the C++ code performs unsigned arithmetic or narrowing
conversions.  Every call to `millis()` inside one handler is modelled by a
single `now : Nat` parameter (the handlers are short, non-blocking and
run on a single cooperative loop).  Callback invocations and outbound
WebSocket frames are modelled as an explicit effect list.
-/

namespace WSW

/-- 2^32, the modulus of `uint32_t` / `unsigned long` on the ESP32 target. -/
def U32 : Nat := 4294967296

/-- 2^64, the modulus of `uint64_t`. -/
def U64 : Nat := 18446744073709551616

/-- `a - b` in `uint32_t` arithmetic (wrap-around subtraction). -/
def sub32 (a b : Nat) : Nat := (a % U32 + U32 - b % U32) % U32

/-- `a - b` in `uint64_t` arithmetic (wrap-around subtraction). -/
def sub64 (a b : Nat) : Nat := (a % U64 + U64 - b % U64) % U64

/-- Reinterpret a `uint64_t` bit pattern (here: a value mod 2^64) as `int` (32-bit,
two's complement), the conversion performed by `pingMs = lastPongTime - clientPingTime`. -/
def toI32 (n : Nat) : Int :=
  let m := n % U32
  if m < 2147483648 then (m : Int) else (m : Int) - (U32 : Int)

/-- Reduce an integer to the representative of its class mod 2^64 in
`[-2^63, 2^63)`, i.e. the `int64_t` result of C++ unsigned 64-bit arithmetic. -/
def wrapI64 (i : Int) : Int := (i + 9223372036854775808) % (18446744073709551616 : Int) - 9223372036854775808

/-- Convert an `int64_t`-style integer to the `uint64_t` holding the same bit pattern. -/
def toU64 (i : Int) : Nat := (i % (18446744073709551616 : Int)).toNat

/-- Maximum number of locally recorded laps (`static const uint8_t MAX_LAPS = 90`). -/
def MAX_LAPS : Nat := 90

/-- Number of lanes in the remote split table (`static const uint8_t MAX_LANES = 10`). -/
def MAX_LANES : Nat := 10

/-- `static const unsigned long PING_INTERVAL = 5000`. -/
def PING_INTERVAL : Nat := 5000

/-- `static const unsigned long RECONNECT_INTERVAL = 5000`. -/
def RECONNECT_INTERVAL : Nat := 5000

/-- The `StopwatchState` enum of the header. -/
inductive StopwatchState where
  | STOPWATCH_STOPPED
  | STOPWATCH_RUNNING
  | STOPWATCH_PAUSED
  deriving Repr, DecidableEq

open StopwatchState

/-- The `LapData` struct: `{uint32_t lapTimeMs; uint32_t totalTimeMs; uint64_t serverTimestamp}`. -/
structure LapData where
  lapTimeMs : Nat
  totalTimeMs : Nat
  serverTimestamp : Nat
  deriving Repr, DecidableEq

instance : Inhabited LapData := ⟨⟨0, 0, 0⟩⟩

/-- The `SplitTimeInfo` struct: `{uint8_t lane; uint64_t timestamp; String formattedTime; bool isValid}`. -/
structure SplitTimeInfo where
  lane : Nat
  timestamp : Nat
  formattedTime : String
  isValid : Bool
  deriving Repr, DecidableEq

instance : Inhabited SplitTimeInfo := ⟨⟨0, 0, "", false⟩⟩

/-- A JSON value as far as the firmware's handlers inspect one
(`ArduinoJson` documents restricted to string and unsigned-integer fields;
numeric-string coercion is not exercised by any handler input we reason about). -/
inductive JsonVal where
  | num (n : Nat)
  | str (v : String)
  deriving Repr, DecidableEq

/-- A deserialized JSON object: association list of fields, as produced by
`deserializeJson` into a `StaticJsonDocument`. -/
def JsonDoc := List (String × JsonVal)

/-- `doc.containsKey(k)`. -/
def containsKey (doc : JsonDoc) (k : String) : Bool := (List.lookup k doc).isSome

/-- `doc[k].as<uintN_t>()`: the numeric value of field `k`, `0` when the field is
absent or not numeric. -/
def getNum (doc : JsonDoc) (k : String) : Nat :=
  match List.lookup k doc with
  | some (JsonVal.num n) => n
  | _ => 0

/-- `doc[k]` converted to `const char*`: the string value when field `k` holds a
string, and the null pointer (`none`) when the field is absent or not a string. -/
def getStr (doc : JsonDoc) (k : String) : Option String :=
  match List.lookup k doc with
  | some (JsonVal.str v) => some v
  | _ => none

/-- `doc[k].as<String>()` for a field known to be present. -/
def jsonToString : JsonVal → String
  | JsonVal.num n => toString n
  | JsonVal.str v => v

/-- `doc[k]` as a raw variant (used by `handlePingMessage` to echo `doc["time"]`). -/
def getVal (doc : JsonDoc) (k : String) : Option JsonVal := List.lookup k doc

/-- An outbound WebSocket text frame, identified by its JSON payload fields. -/
inductive OutMsg where
  | ping (time : Nat)
  | pong (clientPingTimeEcho : Option JsonVal) (serverTime : Nat)
  | startMsg (event heat : String) (timestamp : Nat)
  | split (lane : Nat) (timestamp : Nat)
  deriving Repr, DecidableEq

/-- An observable side effect of a handler: a registered callback firing or an
outbound frame leaving through `sendMessage`. -/
inductive Effect where
  | stateChanged (st : StopwatchState)
  | lapAdded (lapNumber lapTime totalTime : Nat)
  | connectionChanged (connected : Bool)
  | timeSyncCb (synced : Bool)
  | eventHeatChanged (event heat : String)
  | splitTimeReceived (lane : Nat) (time : String)
  | displayClear
  | sendMsg (m : OutMsg)
  deriving Repr, DecidableEq

/-- The mutable state of the `WebSocketStopwatch` object (canonical variant). -/
structure WSState where
  wsConnected : Bool
  lastReconnectAttempt : Nat
  lastPingTime : Nat
  lastPongTime : Nat
  pingMs : Int
  bestPingMs : Int
  pingSampleCount : Nat
  serverTimeOffset : Int
  timeSync : Bool
  currentState : StopwatchState
  startTimeMs : Nat
  elapsedMs : Nat
  syncStartTime : Nat
  startLocked : Bool
  currentEvent : String
  currentHeat : String
  splitTimes : List SplitTimeInfo
  laps : List LapData
  lapCount : Nat
  laneNumber : Nat
  deriving Repr, DecidableEq

/-- The all-cleared lap array written by the constructor and by `reset()`. -/
def emptyLaps : List LapData := List.replicate MAX_LAPS ⟨0, 0, 0⟩

/-- The all-invalid split table written by the constructor and by `clearSplitTimes()`. -/
def emptySplits : List SplitTimeInfo := List.replicate MAX_LANES ⟨0, 0, "", false⟩

/-- The state established by the `WebSocketStopwatch` constructor. -/
def initialState : WSState where
  wsConnected := false
  lastReconnectAttempt := 0
  lastPingTime := 0
  lastPongTime := 0
  pingMs := -1
  bestPingMs := -1
  pingSampleCount := 0
  serverTimeOffset := 0
  timeSync := false
  currentState := STOPWATCH_STOPPED
  startTimeMs := 0
  elapsedMs := 0
  syncStartTime := 0
  startLocked := false
  currentEvent := ""
  currentHeat := ""
  splitTimes := emptySplits
  laps := emptyLaps
  lapCount := 0
  laneNumber := 9

/-- `getSynchronizedTime()`: `millis() + serverTimeOffset` as `uint64_t` when
synchronized, plain `millis()` otherwise. -/
def getSynchronizedTime (now : Nat) (s : WSState) : Nat :=
  if s.timeSync = true then toU64 (((now % U32 : Nat) : Int) + s.serverTimeOffset)
  else now % U32

/-- The elapsed-time computation shared by `stop()`, `addLap()` and
`getElapsedTime()` while running: synchronized-clock difference truncated to
`uint32_t` when a synced start exists, else `millis() - startTimeMs`. -/
def currentElapsedAt (now : Nat) (s : WSState) : Nat :=
  if 0 < s.syncStartTime ∧ s.timeSync = true then
    sub64 (getSynchronizedTime now s) s.syncStartTime % U32
  else
    sub32 now s.startTimeMs

/-- `getElapsedTime()`. -/
def getElapsedTime (now : Nat) (s : WSState) : Nat :=
  if s.currentState = STOPWATCH_RUNNING then currentElapsedAt now s
  else s.elapsedMs

/-- `sendMessage()`: delivers the frame only while `wsConnected`. -/
def sendMessage (m : OutMsg) (s : WSState) : List Effect :=
  if s.wsConnected = true then [Effect.sendMsg m] else []

/-- `start()`: no-op when already running; else capture `startTimeMs`, go
`RUNNING`, zero the lap counter, fire `onStateChanged`. -/
def start (now : Nat) (s : WSState) : WSState × List Effect :=
  if s.currentState ≠ STOPWATCH_RUNNING then
    ({s with startTimeMs := now % U32
             currentState := STOPWATCH_RUNNING
             lapCount := 0},
     [Effect.stateChanged STOPWATCH_RUNNING])
  else (s, [])

/-- `stop()`: freeze the elapsed time and go `STOPPED`; no-op unless running. -/
def stop (now : Nat) (s : WSState) : WSState × List Effect :=
  if s.currentState = STOPWATCH_RUNNING then
    ({s with elapsedMs := currentElapsedAt now s
             currentState := STOPWATCH_STOPPED},
     [Effect.stateChanged STOPWATCH_STOPPED])
  else (s, [])

/-- `clearSplitTimes()`: invalidate the whole remote split table. -/
def clearSplitTimes (s : WSState) : WSState :=
  {s with splitTimes := emptySplits}

/-- `clearDisplay()`: clear the split table and the event/heat strings, fire
`onDisplayClear`. -/
def clearDisplay (s : WSState) : WSState × List Effect :=
  ({clearSplitTimes s with currentEvent := ""
                           currentHeat := ""},
   [Effect.displayClear])

/-- `reset()`: stop, zero both start timestamps and the frozen elapsed time,
clear the lap array and the split table, fire `onStateChanged(STOPPED)`.
Note that `reset()` itself does not touch `startLocked`. -/
def reset (s : WSState) : WSState × List Effect :=
  ({s with currentState := STOPWATCH_STOPPED
           startTimeMs := 0
           elapsedMs := 0
           syncStartTime := 0
           lapCount := 0
           laps := emptyLaps
           splitTimes := emptySplits},
   [Effect.stateChanged STOPWATCH_STOPPED])

/-- `sendSplitTime()`: emit a `split` frame carrying the lane number and the
current synchronized time (its `elapsedTime` argument is not placed on the
wire in this variant); dropped when not connected. -/
def sendSplitTime (now : Nat) (elapsedTime : Nat) (s : WSState) : List Effect :=
  if s.wsConnected = true then
    sendMessage (OutMsg.split s.laneNumber (getSynchronizedTime now s)) s
  else []

/-- `addLap()`: only while running and below `MAX_LAPS`; append a lap whose
duration is the elapsed time minus the previous lap's total, send the split
frame, fire `onLapAdded`. -/
def addLap (now : Nat) (s : WSState) : WSState × List Effect :=
  if s.currentState = STOPWATCH_RUNNING ∧ s.lapCount < MAX_LAPS then
    let currentSyncTime := getSynchronizedTime now s
    let currentElapsed := currentElapsedAt now s
    let lapTime :=
      if 0 < s.lapCount then
        sub32 currentElapsed (s.laps.getD (s.lapCount - 1) default).totalTimeMs
      else currentElapsed
    let s1 : WSState :=
      {s with laps := s.laps.set s.lapCount ⟨lapTime, currentElapsed, currentSyncTime⟩
              lapCount := s.lapCount + 1}
    (s1, sendSplitTime now currentElapsed s ++ [Effect.lapAdded (s.lapCount + 1) lapTime currentElapsed])
  else (s, [])

/-- `sendStart()`: the starter-role outbound start; refused while disconnected,
while `startLocked` is held, or while already running; on success locks further
starts until a server reset. -/
def sendStart (now : Nat) (event heat : String) (s : WSState) : WSState × List Effect :=
  if s.wsConnected = false then (s, [])
  else if s.startLocked = true ∨ s.currentState = STOPWATCH_RUNNING then (s, [])
  else
    ({s with startLocked := true},
     sendMessage (OutMsg.startMsg event heat (getSynchronizedTime now s)) s)

/-- `handleRemoteStart()`: seed `syncStartTime` from the server's broadcast
timestamp, then `start()` unless already running. -/
def handleRemoteStart (now : Nat) (serverTime : Nat) (s : WSState) : WSState × List Effect :=
  let s0 : WSState := {s with syncStartTime := serverTime % U64}
  if s0.currentState ≠ STOPWATCH_RUNNING then start now s0 else (s0, [])

/-- `handleRemoteReset()` = `reset()`. -/
def handleRemoteReset (s : WSState) : WSState × List Effect := reset s

/-- `handleStartMessage()`: remote start (with or without a `timestamp` field),
then engage `startLocked` unconditionally.  The lock is never checked here. -/
def handleStartMessage (now : Nat) (doc : JsonDoc) (s : WSState) : WSState × List Effect :=
  let p :=
    if containsKey doc "timestamp" = true then
      handleRemoteStart now (getNum doc "timestamp") s
    else start now s
  ({p.1 with startLocked := true}, p.2)

/-- `handleResetMessage()`: `reset()` then release `startLocked`. -/
def handleResetMessage (doc : JsonDoc) (s : WSState) : WSState × List Effect :=
  let p := handleRemoteReset s
  ({p.1 with startLocked := false}, p.2)

/-- `handleSplitMessage()`: record a remote lane's split when both `lane` and
`timestamp` fields are present and the `uint8_t` lane value is below
`MAX_LANES`; otherwise change nothing. -/
def handleSplitMessage (doc : JsonDoc) (s : WSState) : WSState × List Effect :=
  if containsKey doc "lane" = true ∧ containsKey doc "timestamp" = true then
    let lane := getNum doc "lane" % 256
    let timestamp := getNum doc "timestamp" % U64
    let timeStr :=
      if containsKey doc "time" = true then jsonToString ((getVal doc "time").getD (JsonVal.str ""))
      else "00:00:00"
    if lane < MAX_LANES then
      ({s with splitTimes := s.splitTimes.set lane ⟨lane, timestamp, timeStr, true⟩},
       [Effect.splitTimeReceived lane timeStr])
    else (s, [])
  else (s, [])

/-- `handleEventHeatMessage()`: update the event/heat strings when both fields
are present. -/
def handleEventHeatMessage (doc : JsonDoc) (s : WSState) : WSState × List Effect :=
  if containsKey doc "event" = true ∧ containsKey doc "heat" = true then
    let ev := jsonToString ((getVal doc "event").getD (JsonVal.str ""))
    let ht := jsonToString ((getVal doc "heat").getD (JsonVal.str ""))
    ({s with currentEvent := ev
             currentHeat := ht},
     [Effect.eventHeatChanged ev ht])
  else (s, [])

/-- `handleClearMessage()` = `clearDisplay()`. -/
def handleClearMessage (doc : JsonDoc) (s : WSState) : WSState × List Effect :=
  clearDisplay s

/-- `handlePingMessage()`: answer a server-originated ping with a pong echoing
`doc["time"]` and carrying our local clock. -/
def handlePingMessage (now : Nat) (doc : JsonDoc) (s : WSState) : WSState × List Effect :=
  (s, sendMessage (OutMsg.pong (getVal doc "time") (now % U32)) s)

/-- `handlePongMessage()`: stamp `lastPongTime`; when both `client_ping_time`
and `server_time` are present, compute the round trip `pingMs`, install the
fresh `serverTimeOffset = server_time - now - pingMs/2`, mark `timeSync`,
track the best (lowest) ping and count the sample. -/
def handlePongMessage (now : Nat) (doc : JsonDoc) (s : WSState) : WSState × List Effect :=
  let s0 : WSState := {s with lastPongTime := now % U32}
  if containsKey doc "client_ping_time" = true ∧ containsKey doc "server_time" = true then
    let clientPingTime := getNum doc "client_ping_time" % U64
    let serverTime := getNum doc "server_time" % U64
    let ping : Int := toI32 (sub64 s0.lastPongTime clientPingTime)
    let offset : Int := wrapI64 ((serverTime : Int) - (s0.lastPongTime : Int) - Int.tdiv ping 2)
    let best : Int := if s0.bestPingMs = -1 ∨ ping < s0.bestPingMs then ping else s0.bestPingMs
    ({s0 with pingMs := ping
              serverTimeOffset := offset
              timeSync := true
              bestPingMs := best
              pingSampleCount := (s0.pingSampleCount + 1) % 256},
     [Effect.timeSyncCb true])
  else (s0, [])

/-- `sendJsonPing()`: emit `{type: ping, time: millis()}`. -/
def sendJsonPing (now : Nat) (s : WSState) : List Effect :=
  sendMessage (OutMsg.ping (now % U32)) s

/-- The result of processing one inbound text frame.  `ub` marks the path on
which the C++ code passes the null `msgType` pointer to `strcmp` (frame parsed
but carrying no string `type` field): undefined behavior, a crash on the
target, with no defined successor state. -/
inductive TextResult where
  | ub
  | ok (s : WSState) (effects : List Effect)
  deriving Repr, DecidableEq

/-- An inbound text frame as seen after `deserializeJson`: either a parse
failure or a JSON object. -/
inductive Frame where
  | malformed
  | obj (doc : JsonDoc)

/-- Lift a handler result into `TextResult`. -/
def okOf (p : WSState × List Effect) : TextResult := TextResult.ok p.1 p.2

/-- The `WStype_TEXT` branch of `handleWebSocketEvent`: drop parse failures,
then dispatch on `strcmp(msgType, ...)` over the message `type`. -/
def handleTextFrame (now : Nat) (f : Frame) (s : WSState) : TextResult :=
  match f with
  | Frame.malformed => TextResult.ok s []
  | Frame.obj doc =>
    match getStr doc "type" with
    | none => TextResult.ub
    | some t =>
      if t = "ping" then okOf (handlePingMessage now doc s)
      else if t = "pong" then okOf (handlePongMessage now doc s)
      else if t = "start" then okOf (handleStartMessage now doc s)
      else if t = "reset" then okOf (handleResetMessage doc s)
      else if t = "split" then okOf (handleSplitMessage doc s)
      else if t = "event-heat" ∨ t = "select-event" then okOf (handleEventHeatMessage doc s)
      else if t = "clear" then okOf (handleClearMessage doc s)
      else TextResult.ok s []

/-- The `WStype_CONNECTED` branch: mark connected, discard all synchronization
state, force an immediate ping, fire `onConnectionChanged(true)`. -/
def connectedEvent (s : WSState) : WSState × List Effect :=
  ({s with wsConnected := true
           bestPingMs := -1
           pingSampleCount := 0
           timeSync := false
           serverTimeOffset := 0
           lastPingTime := 0},
   [Effect.connectionChanged true])

/-- The `WStype_DISCONNECTED` branch. -/
def disconnectedEvent (s : WSState) : WSState × List Effect :=
  ({s with wsConnected := false}, [Effect.connectionChanged false])

/-- `loop()`: the reconnect timer tick plus the ping scheduler — 500 ms cadence
while `!timeSync && pingSampleCount < 5`, `PING_INTERVAL` otherwise. -/
def loop (now : Nat) (s : WSState) : WSState × List Effect :=
  let s1 : WSState :=
    if s.wsConnected = false ∧ sub32 now s.lastReconnectAttempt > RECONNECT_INTERVAL then
      {s with lastReconnectAttempt := now % U32}
    else s
  let pingInterval := if s1.timeSync = false ∧ s1.pingSampleCount < 5 then 500 else PING_INTERVAL
  if s1.wsConnected = true ∧ sub32 now s1.lastPingTime > pingInterval then
    ({s1 with lastPingTime := now % U32}, sendJsonPing now s1)
  else (s1, [])

/-- `setLaneNumber()`. -/
def setLaneNumber (lane : Nat) (s : WSState) : WSState :=
  {s with laneNumber := lane % 256}

/-! Concrete states and frames used by the claim theorems, and the event-level
step function used to state reachability invariants. -/

/-- A state with the start lock engaged and the stopwatch stopped, as it is on
a starter device right after it has issued a start and the race has been
stopped, before any server reset arrives. -/
def lockedState : WSState := {initialState with startLocked := true}

/-- The initial state after the transport reports a live connection. -/
def connState : WSState := {initialState with wsConnected := true}

/-- A running, connected state holding one recorded lap of 300 ms. -/
def runningState : WSState :=
  {initialState with currentState := STOPWATCH_RUNNING
                     wsConnected := true
                     laps := emptyLaps.set 0 ⟨300, 300, 300⟩
                     lapCount := 1}

/-- An inbound `split` frame carrying a lane, a timestamp and a formatted time. -/
def splitDoc (lane ts : Nat) (tstr : String) : JsonDoc :=
  [("type", JsonVal.str "split"), ("lane", JsonVal.num lane),
   ("timestamp", JsonVal.num ts), ("time", JsonVal.str tstr)]

/-- An inbound `start` frame carrying a server timestamp. -/
def startDoc (ts : Nat) : JsonDoc :=
  [("type", JsonVal.str "start"), ("timestamp", JsonVal.num ts)]

/-- An inbound `pong` frame echoing our ping time and carrying the server clock. -/
def pongDoc (cpt st : Nat) : JsonDoc :=
  [("type", JsonVal.str "pong"), ("client_ping_time", JsonVal.num cpt),
   ("server_time", JsonVal.num st)]

/-- The events that drive the single-threaded main loop: transport session
events, inbound text frames, the poll tick, the button-driven local
operations and configuration. -/
inductive Ev where
  | connected
  | disconnected
  | text (now : Nat) (f : Frame)
  | pollTick (now : Nat)
  | pressStart (now : Nat)
  | pressStop (now : Nat)
  | pressReset
  | pressLap (now : Nat)
  | starterSend (now : Nat) (event heat : String)
  | configLane (lane : Nat)

/-- The state reached after one event (effects dropped).  On the undefined-
behavior path of a text frame without a string `type` (see C3) there is no
defined successor; the state is kept unchanged there so that invariants are
asserted about defined behavior only. -/
def stepE : Ev → WSState → WSState
  | Ev.connected, s => (connectedEvent s).1
  | Ev.disconnected, s => (disconnectedEvent s).1
  | Ev.text now f, s =>
    match handleTextFrame now f s with
    | TextResult.ok s1 _ => s1
    | TextResult.ub => s
  | Ev.pollTick now, s => (loop now s).1
  | Ev.pressStart now, s => (start now s).1
  | Ev.pressStop now, s => (stop now s).1
  | Ev.pressReset, s => (reset s).1
  | Ev.pressLap now, s => (addLap now s).1
  | Ev.starterSend now event heat, s => (sendStart now event heat s).1
  | Ev.configLane lane, s => setLaneNumber lane s

/-- Only a pong ever raises `pingSampleCount`, and the same pong raises
`timeSync`; a (re)connect zeroes both.  Hence while unsynchronized the sample
counter is 0, which makes the `pingSampleCount < 5` half of the rapid-burst
condition in `loop()` redundant. -/
def InvSync (s : WSState) : Prop := s.timeSync = false → s.pingSampleCount = 0

/-- State after the connect event from the initial state. -/
def sAfterConnect : WSState := (connectedEvent initialState).1

/-- State after the first rapid ping has gone out at local time 600. -/
def sAfterPing : WSState := (loop 600 sAfterConnect).1

/-- State after the first pong (sent at 600, answered with server time 700,
received at 700): one sample collected, synchronized. -/
def sAfterPong : WSState := (handlePongMessage 700 (pongDoc 600 700) sAfterPing).1

/-! Arithmetic facts about the wrap-around helpers, used to restate the
machine arithmetic as plain arithmetic under in-range hypotheses. -/

theorem sub32_eq_sub {a b : Nat} (hba : b ≤ a) (ha : a < U32) : sub32 a b = a - b := by
  simp only [sub32, U32] at *
  omega

theorem sub64_eq_sub {a b : Nat} (hba : b ≤ a) (ha : a < U64) : sub64 a b = a - b := by
  simp only [sub64, U64] at *
  omega

theorem toI32_eq_ofNat {n : Nat} (h : n < 2147483648) : toI32 n = (n : Int) := by
  simp only [toI32, U32]
  rw [Nat.mod_eq_of_lt (by omega)]
  rw [if_pos h]

theorem wrapI64_eq_self {i : Int} (h1 : -9223372036854775808 ≤ i) (h2 : i < 9223372036854775808) :
    wrapI64 i = i := by
  simp only [wrapI64]
  rw [Int.emod_eq_of_lt (by omega) (by omega)]
  omega

theorem int_tdiv_two (m : Nat) : Int.tdiv (m : Int) 2 = ((m / 2 : Nat) : Int) := rfl

theorem getD_set_self {α : Type} [Inhabited α] :
    ∀ (l : List α) (i : Nat) (v : α), i < l.length → (l.set i v).getD i default = v
  | [], i, _, h => absurd h (by simp)
  | _ :: _, 0, _, _ => rfl
  | _ :: t, i + 1, v, h => getD_set_self t i v (by simpa using h)

/-- C9: `start()` is idempotent across consecutive calls without an
intervening `stop()`/`reset()`: the second call returns the state completely
unchanged (in particular `startTimeMs`, the `RUNNING` state and the lap
counter) and fires no callback. -/
theorem C9_start_idempotent (now1 now2 : Nat) (s : WSState) :
    start now2 (start now1 s).1 = ((start now1 s).1, []) ∧
    (start now1 s).1.currentState = STOPWATCH_RUNNING := by
  unfold start
  by_cases hr : s.currentState = STOPWATCH_RUNNING
  · simp [hr]
  · simp [hr]

/-- C1 counterexample: from a prior state holding the start lock, `reset()`
(the method, as invoked for example by the GPIO14 button path of `main.cpp`)
leaves `startLocked` still `true`, refuting the claim that `reset()` leaves
`StartLock == false` for every prior state. -/
theorem C1_counterexample :
    lockedState.startLocked = true ∧ (reset lockedState).1.startLocked = true := by
  exact ⟨rfl, rfl⟩

/-- C1 (amended): for every prior state, `reset()` leaves the stopwatch
`STOPPED` with `elapsed() == 0` and `lapCount == 0`, clears all lap records,
both start timestamps and the remote split table, and fires
`onStateChanged(STOPPED)`; however it leaves `startLocked` unchanged —
`StartLock` is cleared only by the reset message handler, which runs
`reset()` and then drops the lock. -/
theorem C1_reset_effects (s : WSState) :
    (reset s).1.currentState = STOPWATCH_STOPPED ∧
    (∀ now, getElapsedTime now (reset s).1 = 0) ∧
    (reset s).1.lapCount = 0 ∧
    (reset s).1.laps = emptyLaps ∧
    (reset s).1.startTimeMs = 0 ∧
    (reset s).1.syncStartTime = 0 ∧
    (reset s).1.splitTimes = emptySplits ∧
    (reset s).2 = [Effect.stateChanged STOPWATCH_STOPPED] ∧
    (reset s).1.startLocked = s.startLocked ∧
    (∀ doc, (handleResetMessage doc s).1 = {(reset s).1 with startLocked := false}) := by
  refine ⟨rfl, ?_, rfl, rfl, rfl, rfl, rfl, rfl, rfl, fun doc => rfl⟩
  intro now
  simp [reset, getElapsedTime]

/-- C7: processing an inbound `clear` frame invalidates the whole remote split
table and empties the event/heat strings, and leaves the local lap table, lap
count, stopwatch state and both start timestamps untouched. -/
theorem C7_clear_message (now : Nat) (s : WSState) :
    handleTextFrame now (Frame.obj [("type", JsonVal.str "clear")]) s =
      TextResult.ok
        {s with splitTimes := emptySplits
                currentEvent := ""
                currentHeat := ""}
        [Effect.displayClear] ∧
    (∀ e ∈ emptySplits, e.isValid = false) ∧
    (∀ doc, (handleClearMessage doc s).1.laps = s.laps ∧
      (handleClearMessage doc s).1.lapCount = s.lapCount ∧
      (handleClearMessage doc s).1.currentState = s.currentState ∧
      (handleClearMessage doc s).1.startTimeMs = s.startTimeMs ∧
      (handleClearMessage doc s).1.syncStartTime = s.syncStartTime) := by
  refine ⟨?_, ?_, fun doc => ⟨rfl, rfl, rfl, rfl, rfl⟩⟩
  · rfl
  · intro e he
    have : e = (⟨0, 0, "", false⟩ : SplitTimeInfo) := List.eq_of_mem_replicate he
    rw [this]

/-- C3: a text frame that fails JSON parsing is discarded with no state change
and no error; but a frame that parses yet lacks a string `type` field makes
`handleWebSocketEvent` pass the null `msgType` pointer to `strcmp` — undefined
behavior (a crash on the target), not a silent discard, so the claim's
"never fatal" half contradicts the code. -/
theorem C3_malformed_frames :
    (∀ (now : Nat) (s : WSState), handleTextFrame now Frame.malformed s = TextResult.ok s []) ∧
    handleTextFrame 0 (Frame.obj [("foo", JsonVal.num 1)]) initialState = TextResult.ub := by
  exact ⟨fun now s => rfl, rfl⟩

/-- C10: an inbound split frame writes the remote split table only when the
carried `uint8_t` lane id is strictly below `MAX_LANES = 10`; with a larger
lane id it is silently dropped — state untouched, no callback — so the
fixed-size table is never indexed out of bounds. -/
theorem C10_split_lane_bound (s : WSState) (lane ts : Nat) (tstr : String)
    (hlane : lane < 256) (hts : ts < U64) (hlen : s.splitTimes.length = MAX_LANES) :
    (MAX_LANES ≤ lane → handleSplitMessage (splitDoc lane ts tstr) s = (s, [])) ∧
    (lane < MAX_LANES →
      handleSplitMessage (splitDoc lane ts tstr) s =
        ({s with splitTimes := s.splitTimes.set lane ⟨lane, ts, tstr, true⟩},
         [Effect.splitTimeReceived lane tstr]) ∧
      lane < s.splitTimes.length) := by
  have hdoc : handleSplitMessage (splitDoc lane ts tstr) s =
      if lane % 256 < MAX_LANES then
        ({s with splitTimes := s.splitTimes.set (lane % 256) ⟨lane % 256, ts % U64, tstr, true⟩},
         [Effect.splitTimeReceived (lane % 256) tstr])
      else (s, []) := by
    simp [handleSplitMessage, splitDoc, containsKey, getNum, getVal, jsonToString, List.lookup]
  rw [Nat.mod_eq_of_lt hlane, Nat.mod_eq_of_lt hts] at hdoc
  constructor
  · intro hge
    rw [hdoc, if_neg (by omega)]
  · intro hlt
    refine ⟨by rw [hdoc, if_pos hlt], by omega⟩

/-- C10 witness: the bound theorem applied to the initial state and the
concrete in-range frame `{type: split, lane: 3, timestamp: 5, time: "x"}`. -/
theorem C10_split_lane_bound_witness :
    3 < 256 ∧ 5 < U64 ∧ initialState.splitTimes.length = MAX_LANES ∧
    handleSplitMessage (splitDoc 3 5 "x") initialState =
      ({initialState with splitTimes := initialState.splitTimes.set 3 ⟨3, 5, "x", true⟩},
       [Effect.splitTimeReceived 3 "x"]) :=
  ⟨by decide, by decide, by decide,
   ((C10_split_lane_bound initialState 3 5 "x" (by decide) (by decide) (by decide)).2
     (by decide)).1⟩

/-- C8: `addLap()` appends a lap only while `RUNNING` with fewer than
`MAX_LAPS` laps (otherwise it is a silent no-op); the appended lap's duration
is the current elapsed time minus the previous lap's total (the elapsed time
itself for the first lap); and the outbound split frame is stamped with the
current synchronized time of transmission, not with the lap's elapsed time. -/
theorem C8_addLap_spec (now : Nat) (s : WSState)
    (hlen : s.laps.length = MAX_LAPS) :
    (¬ (s.currentState = STOPWATCH_RUNNING ∧ s.lapCount < MAX_LAPS) →
      addLap now s = (s, [])) ∧
    (s.currentState = STOPWATCH_RUNNING → s.lapCount < MAX_LAPS →
      (addLap now s).1.lapCount = s.lapCount + 1 ∧
      ((addLap now s).1.laps.getD s.lapCount default).totalTimeMs = currentElapsedAt now s ∧
      ((addLap now s).1.laps.getD s.lapCount default).serverTimestamp = getSynchronizedTime now s ∧
      (s.lapCount = 0 →
        ((addLap now s).1.laps.getD s.lapCount default).lapTimeMs = currentElapsedAt now s) ∧
      (0 < s.lapCount →
        (s.laps.getD (s.lapCount - 1) default).totalTimeMs ≤ currentElapsedAt now s →
        currentElapsedAt now s < U32 →
        ((addLap now s).1.laps.getD s.lapCount default).lapTimeMs =
          currentElapsedAt now s - (s.laps.getD (s.lapCount - 1) default).totalTimeMs) ∧
      (s.wsConnected = true →
        (addLap now s).2 =
          [Effect.sendMsg (OutMsg.split s.laneNumber (getSynchronizedTime now s)),
           Effect.lapAdded (s.lapCount + 1)
             ((addLap now s).1.laps.getD s.lapCount default).lapTimeMs
             (currentElapsedAt now s)])) := by
  constructor
  · intro hno
    unfold addLap
    rw [if_neg hno]
  · intro hrun hcnt
    have hset : ∀ v : LapData, (s.laps.set s.lapCount v).getD s.lapCount default = v := by
      intro v
      exact getD_set_self s.laps s.lapCount v (by rw [hlen]; exact hcnt)
    unfold addLap
    rw [if_pos ⟨hrun, hcnt⟩]
    simp only [hset]
    refine ⟨trivial, trivial, trivial, ?_, ?_, ?_⟩
    · intro h0
      simp [h0]
    · intro hpos hle hlt
      rw [if_pos hpos]
      exact sub32_eq_sub hle hlt
    · intro hconn
      simp [sendSplitTime, sendMessage, hconn]

/-- C8 witness: a running, connected state with one prior lap; the second lap
at elapsed 700 ms gets duration 700 - 300 = 400 ms and the split frame is
stamped with the synchronized transmission time. -/
theorem C8_addLap_spec_witness :
    runningState.laps.length = MAX_LAPS ∧
    runningState.currentState = STOPWATCH_RUNNING ∧ runningState.lapCount < MAX_LAPS ∧
    ((addLap 700 runningState).1.lapCount = 1 + 1 ∧
      ((addLap 700 runningState).1.laps.getD 1 default).totalTimeMs = currentElapsedAt 700 runningState ∧
      ((addLap 700 runningState).1.laps.getD 1 default).serverTimestamp = getSynchronizedTime 700 runningState ∧
      ((addLap 700 runningState).1.laps.getD 1 default).lapTimeMs =
        currentElapsedAt 700 runningState - 300 ∧
      (addLap 700 runningState).2 =
        [Effect.sendMsg (OutMsg.split runningState.laneNumber (getSynchronizedTime 700 runningState)),
         Effect.lapAdded (1 + 1) ((addLap 700 runningState).1.laps.getD 1 default).lapTimeMs
           (currentElapsedAt 700 runningState)]) := by
  have h := (C8_addLap_spec 700 runningState (by decide)).2 (by decide) (by decide)
  refine ⟨by decide, by decide, by decide,
    h.1, h.2.1, h.2.2.1, ?_, h.2.2.2.2.2 (by decide)⟩
  have := h.2.2.2.2.1 (by decide) (by decide) (by decide)
  simpa using this

/-- C2 counterexample: with the start lock held and the stopwatch stopped, an
inbound `start` frame is still accepted — `handleStartMessage` neither checks
the lock nor drops the frame: the stopwatch transitions to `RUNNING` and the
synced start timestamp is installed.  This refutes the half of the claim
stating that no second inbound start message is accepted while the lock is
held. -/
theorem C2_counterexample :
    lockedState.startLocked = true ∧
    lockedState.currentState = STOPWATCH_STOPPED ∧
    (handleStartMessage 100 (startDoc 5) lockedState).1.currentState = STOPWATCH_RUNNING ∧
    (handleStartMessage 100 (startDoc 5) lockedState).1.syncStartTime = 5 := by
  refine ⟨rfl, rfl, ?_, ?_⟩ <;> decide

/-- C2 (amended): while `startLocked` is held, `sendStart` sends nothing and
changes nothing, so two starter presses within one lock cycle produce exactly
one outbound start frame; inbound `start` frames, however, are processed
regardless of the lock (`handleStartMessage` engages the lock but never checks
it). -/
theorem C2_startLock_outbound_only (now1 now2 : Nat) (event heat : String) (s : WSState) :
    (s.startLocked = true → sendStart now1 event heat s = (s, [])) ∧
    (s.wsConnected = true → s.startLocked = false → s.currentState ≠ STOPWATCH_RUNNING →
      (sendStart now1 event heat s).2 =
        [Effect.sendMsg (OutMsg.startMsg event heat (getSynchronizedTime now1 s))] ∧
      (sendStart now1 event heat s).1.startLocked = true ∧
      sendStart now2 event heat (sendStart now1 event heat s).1 =
        ((sendStart now1 event heat s).1, [])) ∧
    (∀ ts, s.startLocked = true →
      (handleStartMessage now1 (startDoc ts) s).1.syncStartTime = ts % U64) := by
  refine ⟨?_, ?_, ?_⟩
  · intro hlock
    unfold sendStart
    by_cases hc : s.wsConnected = false
    · rw [if_pos hc]
    · rw [if_neg hc, if_pos (Or.inl hlock)]
  · intro hconn hlock hrun
    have hw : ¬ s.wsConnected = false := by simp [hconn]
    have hg : ¬ (s.startLocked = true ∨ s.currentState = STOPWATCH_RUNNING) := by
      rw [hlock]
      simp [hrun]
    have hfirst : sendStart now1 event heat s =
        ({s with startLocked := true},
         sendMessage (OutMsg.startMsg event heat (getSynchronizedTime now1 s)) s) := by
      unfold sendStart
      rw [if_neg hw, if_neg hg]
    rw [hfirst]
    refine ⟨by simp [sendMessage, hconn], rfl, ?_⟩
    unfold sendStart
    rw [if_neg (show ¬ ({s with startLocked := true} : WSState).wsConnected = false by simp [hconn])]
    rw [if_pos (Or.inl rfl)]
  · intro ts hlock
    have hck : containsKey (startDoc ts) "timestamp" = true := rfl
    unfold handleStartMessage
    rw [if_pos hck]
    unfold handleRemoteStart
    dsimp only
    split
    · unfold start
      split <;> rfl
    · rfl

/-- C2 witness: on a fresh connected state a first starter press emits exactly
one start frame and engages the lock, a second press on the resulting state
emits nothing; and a locked state still installs an inbound start timestamp. -/
theorem C2_startLock_outbound_only_witness :
    (sendStart 100 "E" "H" connState).2 =
      [Effect.sendMsg (OutMsg.startMsg "E" "H" (getSynchronizedTime 100 connState))] ∧
    (sendStart 100 "E" "H" connState).1.startLocked = true ∧
    sendStart 200 "E" "H" (sendStart 100 "E" "H" connState).1 =
      ((sendStart 100 "E" "H" connState).1, []) ∧
    (handleStartMessage 100 (startDoc 7) lockedState).1.syncStartTime = 7 % U64 := by
  have h := (C2_startLock_outbound_only 100 200 "E" "H" connState).2.1 rfl rfl (by decide)
  have h3 := (C2_startLock_outbound_only 100 200 "E" "H" lockedState).2.2 7 rfl
  exact ⟨h.1, h.2.1, h.2.2, h3⟩

/-- C4: a pong carrying both fields, received at local time `now`, yields
`rtt = now - clientPingTime` and installs the freshly computed
`offset = serverTime - now - rtt/2` (most recent sample, not an average —
the old offset does not occur in the result), sets `timeSync`, updates the
best RTT exactly when this one is lower or is the first sample, counts the
sample, and all subsequent synchronized-time math uses the installed offset. -/
theorem C4_pong_update (s : WSState) (now cpt st : Nat)
    (hnow : now < U32) (hcpt : cpt ≤ now) (hrtt : now - cpt < 2147483648)
    (hst : st < 4611686018427387904) :
    (handlePongMessage now (pongDoc cpt st) s).1.pingMs = ((now - cpt : Nat) : Int) ∧
    (handlePongMessage now (pongDoc cpt st) s).1.serverTimeOffset =
      (st : Int) - (now : Int) - (((now - cpt) / 2 : Nat) : Int) ∧
    (handlePongMessage now (pongDoc cpt st) s).1.timeSync = true ∧
    (s.bestPingMs = -1 ∨ ((now - cpt : Nat) : Int) < s.bestPingMs →
      (handlePongMessage now (pongDoc cpt st) s).1.bestPingMs = ((now - cpt : Nat) : Int)) ∧
    (¬ (s.bestPingMs = -1 ∨ ((now - cpt : Nat) : Int) < s.bestPingMs) →
      (handlePongMessage now (pongDoc cpt st) s).1.bestPingMs = s.bestPingMs) ∧
    (s.pingSampleCount < 255 →
      (handlePongMessage now (pongDoc cpt st) s).1.pingSampleCount = s.pingSampleCount + 1) ∧
    (handlePongMessage now (pongDoc cpt st) s).2 = [Effect.timeSyncCb true] ∧
    (∀ t, getSynchronizedTime t (handlePongMessage now (pongDoc cpt st) s).1 =
      toU64 (((t % U32 : Nat) : Int) +
        (handlePongMessage now (pongDoc cpt st) s).1.serverTimeOffset)) := by
  have hnow' : now < 4294967296 := hnow
  have hnow64 : now < U64 := by
    simp only [U64]
    omega
  have hcpt64 : cpt % U64 = cpt := Nat.mod_eq_of_lt (by simp only [U64]; omega)
  have hst64 : st % U64 = st := Nat.mod_eq_of_lt (by simp only [U64]; omega)
  have hgc : getNum (pongDoc cpt st) "client_ping_time" = cpt := rfl
  have hgs : getNum (pongDoc cpt st) "server_time" = st := rfl
  have heq : handlePongMessage now (pongDoc cpt st) s =
      ({s with lastPongTime := now
               pingMs := ((now - cpt : Nat) : Int)
               serverTimeOffset := (st : Int) - (now : Int) - (((now - cpt) / 2 : Nat) : Int)
               timeSync := true
               bestPingMs := if s.bestPingMs = -1 ∨ ((now - cpt : Nat) : Int) < s.bestPingMs
                 then ((now - cpt : Nat) : Int) else s.bestPingMs
               pingSampleCount := (s.pingSampleCount + 1) % 256},
       [Effect.timeSyncCb true]) := by
    unfold handlePongMessage
    dsimp only
    rw [if_pos (⟨rfl, rfl⟩ :
      containsKey (pongDoc cpt st) "client_ping_time" = true ∧
      containsKey (pongDoc cpt st) "server_time" = true)]
    rw [hgc, hgs, hcpt64, hst64, Nat.mod_eq_of_lt hnow]
    rw [sub64_eq_sub hcpt hnow64, toI32_eq_ofNat hrtt, int_tdiv_two]
    rw [wrapI64_eq_self (by omega) (by omega)]
  rw [heq]
  refine ⟨rfl, rfl, rfl, ?_, ?_, ?_, rfl, ?_⟩
  · intro h
    dsimp only
    rw [if_pos h]
  · intro h
    dsimp only
    rw [if_neg h]
  · intro h
    dsimp only
    exact Nat.mod_eq_of_lt (by omega)
  · intro t
    simp [getSynchronizedTime]

/-- C4 witness: the pong `{client_ping_time: 1000, server_time: 2000}`
received at local time 1100 from the initial state: rtt 100, offset
2000 - 1100 - 50 = 850, first sample becomes the best, counter 1. -/
theorem C4_pong_update_witness :
    (handlePongMessage 1100 (pongDoc 1000 2000) initialState).1.pingMs = 100 ∧
    (handlePongMessage 1100 (pongDoc 1000 2000) initialState).1.serverTimeOffset = 850 ∧
    (handlePongMessage 1100 (pongDoc 1000 2000) initialState).1.timeSync = true ∧
    (handlePongMessage 1100 (pongDoc 1000 2000) initialState).1.bestPingMs = 100 ∧
    (handlePongMessage 1100 (pongDoc 1000 2000) initialState).1.pingSampleCount = 0 + 1 := by
  have h := C4_pong_update initialState 1100 1000 2000 (by decide) (by decide) (by decide)
    (by decide)
  exact ⟨h.1.trans (by decide), h.2.1.trans (by decide), h.2.2.1,
    (h.2.2.2.1 (Or.inl rfl)).trans (by decide), h.2.2.2.2.2.1 (by decide)⟩

/-- C5: zero-jitter scenario with round-trip time r = 100 ms split evenly
(50 ms out, 50 ms back) and true clock offset o = 0 — the ping leaves at
local 1000, the server (same clock, o = 0) replies at 1050, the pong arrives
at local 1100.  The code computes offset = 1050 - 1100 - 100/2 = -100, so
|computed - o| = 100 > r/2 = 50: the `|computed - o| <= r/2` bound claimed
for the offset estimator is violated (the subtraction of rtt/2 where the
estimator would need to add it makes the error approximately a full RTT under
symmetric latency). -/
theorem C5_offset_error_exceeds_half_rtt :
    (handlePongMessage 1100 (pongDoc 1000 1050) initialState).1.pingMs = 100 ∧
    (handlePongMessage 1100 (pongDoc 1000 1050) initialState).1.serverTimeOffset = -100 ∧
    ¬ ((handlePongMessage 1100 (pongDoc 1000 1050) initialState).1.serverTimeOffset -
        0).natAbs ≤ 100 / 2 := by
  refine ⟨?_, ?_, ?_⟩ <;> decide

theorem invSync_handlePong (now : Nat) (doc : JsonDoc) (s : WSState) (h : InvSync s) :
    InvSync (handlePongMessage now doc s).1 := by
  unfold handlePongMessage
  dsimp only
  split
  · intro hts
    exact Bool.noConfusion hts
  · exact h

theorem invSync_handleStart (now : Nat) (doc : JsonDoc) (s : WSState) (h : InvSync s) :
    InvSync (handleStartMessage now doc s).1 := by
  unfold handleStartMessage handleRemoteStart start
  dsimp only
  repeat' split
  all_goals exact h

theorem invSync_handleSplit (doc : JsonDoc) (s : WSState) (h : InvSync s) :
    InvSync (handleSplitMessage doc s).1 := by
  unfold handleSplitMessage
  dsimp only
  repeat' split
  all_goals exact h

theorem invSync_handleEventHeat (doc : JsonDoc) (s : WSState) (h : InvSync s) :
    InvSync (handleEventHeatMessage doc s).1 := by
  unfold handleEventHeatMessage
  dsimp only
  repeat' split
  all_goals exact h

/-- C6 counterexample: connect at time 0, first rapid ping at 600; the first
pong arrives at 700, so one sample (fewer than five) has been collected; at
time 1200 — 600 ms after the last ping — the poll loop sends nothing, because
the code leaves the 500 ms cadence as soon as `timeSync` is set by the very
first pong, not after five samples as claimed. -/
theorem C6_counterexample :
    (loop 600 sAfterConnect).2 = [Effect.sendMsg (OutMsg.ping 600)] ∧
    sAfterPong.pingSampleCount = 1 ∧
    sAfterPong.pingSampleCount < 5 ∧
    sAfterPong.wsConnected = true ∧
    sub32 1200 sAfterPong.lastPingTime = 600 ∧
    (loop 1200 sAfterPong).2 = [] := by
  refine ⟨?_, ?_, ?_, ?_, ?_, ?_⟩ <;> decide

/-- C6 (amended): after every (re)connect the poll loop sends pings every
500 ms until the first pong is received, and every 5000 ms thereafter;
`isSynchronized` becomes true with that first pong.  (The five-sample bound of
the claim is vacuous: the sample counter and `timeSync` are only ever set
together, so the burst in fact ends with the first pong.)  Stated as: the
unsynchronized-counter invariant holds initially and is preserved by every
event; while connected and unsynchronized a poll tick pings exactly when more
than 500 ms have passed; while synchronized exactly when more than
`PING_INTERVAL` ms have passed; any well-formed pong sets `timeSync`; a
reconnect clears `timeSync` and the sample counter. -/
theorem C6_ping_cadence :
    InvSync initialState ∧
    (∀ (ev : Ev) (s : WSState), InvSync s → InvSync (stepE ev s)) ∧
    (∀ (s : WSState) (now : Nat), InvSync s → s.wsConnected = true → s.timeSync = false →
      (sub32 now s.lastPingTime > 500 →
        loop now s = ({s with lastPingTime := now % U32},
                      [Effect.sendMsg (OutMsg.ping (now % U32))])) ∧
      (¬ sub32 now s.lastPingTime > 500 → loop now s = (s, []))) ∧
    (∀ (s : WSState) (now : Nat), s.wsConnected = true → s.timeSync = true →
      (sub32 now s.lastPingTime > PING_INTERVAL →
        loop now s = ({s with lastPingTime := now % U32},
                      [Effect.sendMsg (OutMsg.ping (now % U32))])) ∧
      (¬ sub32 now s.lastPingTime > PING_INTERVAL → loop now s = (s, []))) ∧
    (∀ (s : WSState) (now cpt st : Nat),
      (handlePongMessage now (pongDoc cpt st) s).1.timeSync = true) ∧
    (∀ s : WSState,
      (connectedEvent s).1.timeSync = false ∧ (connectedEvent s).1.pingSampleCount = 0) := by
  refine ⟨fun _ => rfl, ?_, ?_, ?_, ?_, fun s => ⟨rfl, rfl⟩⟩
  · intro ev s h
    cases ev with
    | connected => intro _; rfl
    | disconnected => exact h
    | text now f =>
      cases f with
      | malformed => exact h
      | obj doc =>
        show InvSync (match handleTextFrame now (Frame.obj doc) s with
          | TextResult.ok s1 _ => s1
          | TextResult.ub => s)
        unfold handleTextFrame
        dsimp only
        rcases hget : getStr doc "type" with _ | t
        · exact h
        · dsimp only
          split_ifs
          · exact h
          · exact invSync_handlePong now doc s h
          · exact invSync_handleStart now doc s h
          · exact h
          · exact invSync_handleSplit doc s h
          · exact invSync_handleEventHeat doc s h
          · exact h
          · exact h
    | pollTick now =>
      show InvSync (loop now s).1
      unfold loop
      dsimp only
      repeat' split
      all_goals exact h
    | pressStart now =>
      show InvSync (start now s).1
      unfold start
      repeat' split
      all_goals exact h
    | pressStop now =>
      show InvSync (stop now s).1
      unfold stop
      repeat' split
      all_goals exact h
    | pressReset => exact h
    | pressLap now =>
      show InvSync (addLap now s).1
      unfold addLap
      repeat' split
      all_goals exact h
    | starterSend now event heat =>
      show InvSync (sendStart now event heat s).1
      unfold sendStart
      repeat' split
      all_goals exact h
    | configLane lane => exact h
  · intro s now hinv hconn hts
    have hcnt : s.pingSampleCount = 0 := hinv hts
    have hnr : ¬ (s.wsConnected = false ∧ sub32 now s.lastReconnectAttempt > RECONNECT_INTERVAL) := by
      rw [hconn]
      simp
    have hint : s.timeSync = false ∧ s.pingSampleCount < 5 := ⟨hts, by omega⟩
    constructor
    · intro hgt
      unfold loop
      dsimp only
      rw [if_neg hnr, if_pos hint,
        if_pos (show s.wsConnected = true ∧ sub32 now s.lastPingTime > 500 from ⟨hconn, hgt⟩)]
      simp [sendJsonPing, sendMessage, hconn]
    · intro hle
      unfold loop
      dsimp only
      rw [if_neg hnr, if_pos hint,
        if_neg (show ¬ (s.wsConnected = true ∧ sub32 now s.lastPingTime > 500) from
          fun hc => hle hc.2)]
  · intro s now hconn hts
    have hnr : ¬ (s.wsConnected = false ∧ sub32 now s.lastReconnectAttempt > RECONNECT_INTERVAL) := by
      rw [hconn]
      simp
    have hni : ¬ (s.timeSync = false ∧ s.pingSampleCount < 5) := by
      rw [hts]
      simp
    constructor
    · intro hgt
      unfold loop
      dsimp only
      rw [if_neg hnr, if_neg hni,
        if_pos (show s.wsConnected = true ∧ sub32 now s.lastPingTime > PING_INTERVAL from
          ⟨hconn, hgt⟩)]
      simp [sendJsonPing, sendMessage, hconn]
    · intro hle
      unfold loop
      dsimp only
      rw [if_neg hnr, if_neg hni,
        if_neg (show ¬ (s.wsConnected = true ∧ sub32 now s.lastPingTime > PING_INTERVAL) from
          fun hc => hle hc.2)]
  · intro s now cpt st
    unfold handlePongMessage
    dsimp only
    rw [if_pos (⟨rfl, rfl⟩ :
      containsKey (pongDoc cpt st) "client_ping_time" = true ∧
      containsKey (pongDoc cpt st) "server_time" = true)]

/-- C6 witness: the cadence theorem applied to the concrete post-connect state
at time 600 (rapid ping goes out) and the concrete first pong (synchronizes). -/
theorem C6_ping_cadence_witness :
    loop 600 sAfterConnect =
      ({sAfterConnect with lastPingTime := 600 % U32},
       [Effect.sendMsg (OutMsg.ping (600 % U32))]) ∧
    (handlePongMessage 700 (pongDoc 600 700) sAfterPing).1.timeSync = true := by
  exact ⟨(C6_ping_cadence.2.2.1 sAfterConnect 600 (fun _ => rfl) rfl rfl).1 (by decide),
         C6_ping_cadence.2.2.2.2.1 sAfterPing 700 600 700⟩

end WSW
